import Mathlib

/-!
Shallow embedding of the video-ingestion pipeline of the Tubely media-hosting
API (TypeScript source, revisions `src/api/videos.ts`, `src/unnamed/part_000`,
`src/unnamed/part_001`, plus `src/api/thumbnails.ts` and `src/api/assets.ts`).

The upload orchestrator `handlerUploadVideo` is embedded from the revision in
`src/unnamed/part_000`, which is the revision the specification's state
machine describes (deterministic temporary path, storage key
`<class>/<videoId>.mp4`, CloudFront-distribution playback URL, `rm`-based
cleanup).  External collaborators that are not part of the source tree
(JWT validation in `../auth`, the blob-store client in `../s3`, the
`ffprobe`/`ffmpeg` subprocesses) are modelled as oracle inputs in an `Env`
record: the handler's observable control flow depends only on their outcomes
(success value / exit code / captured output), which is exactly what the
oracle provides.
-/

namespace Tubely

/-- Aspect classifier from `getVideoAspectRatio` (identical in all three
revisions):
`Math.floor(width / height) === Math.floor(16 / 9)` selects `"landscape"`,
`Math.floor(width / height) === Math.floor(9 / 16)` selects `"portrait"`,
otherwise `"other"`.  For positive integer dimensions the floored quotient is
natural-number division, and `Math.floor(16/9) = 1`, `Math.floor(9/16) = 0`. -/
def classify (width height : Nat) : String :=
  if width / height = 16 / 9 then "landscape"
  else if width / height = 9 / 16 then "portrait"
  else "other"

/-- `const MAX_UPLOAD_SIZE = 1 << 30; //1GB` (src/unnamed/part_000, line 13). -/
def MAX_UPLOAD_SIZE : Nat := 1 <<< 30

/-- The video record owned by the Video Record Store (`src/db/videos`):
identifier, owning user, and the two mutable URL fields. -/
structure Video where
  id : String
  userID : String
  videoURL : Option String
  thumbnailURL : Option String
deriving DecidableEq, Repr

/-- Configuration record (`src/config.ts`, `src/unnamed/part_002`). -/
structure ApiConfig where
  jwtSecret : String
  assetsRoot : String
  s3Bucket : String
  s3Region : String
  s3CfDistribution : String
  port : String
deriving DecidableEq, Repr

/-- The error taxonomy of the handlers (`src/api/errors`), with the
`Error`-class failures of the probe, remux, and storage steps distinguished
by the step that raised them. -/
inductive ApiError where
  | badRequest (msg : String)
  | authFailure (msg : String)
  | userForbidden (msg : String)
  | notFound (msg : String)
  | probeFailure (msg : String)
  | remuxFailure (msg : String)
  | storageWriteFailure (msg : String)
deriving DecidableEq, Repr

/-- The multipart form file: declared size in bytes, declared content type,
and its byte content (abstracted as a string). -/
structure FileData where
  size : Nat
  type : String
  content : String
deriving DecidableEq, Repr

/-- Outcome of the `ffprobe` subprocess as observed by
`getVideoAspectRatio`: exit code, the parsed `streams[0].width` /
`streams[0].height` pair when present in the JSON output, and captured
stderr. -/
structure ProbeRaw where
  exitCode : Nat
  dims : Option (Nat × Nat)
  stderr : String
deriving DecidableEq, Repr

/-- Oracle outcomes for the external collaborators of one upload run.
`authResult` models `validateJWT` from `../auth` (not in the source tree):
a user identifier or an auth failure.  `remuxExitCode`/`remuxStderr` model
the `ffmpeg` subprocess, and `s3WriteOk` models `uploadVideoToS3` from
`../s3` (not in the source tree; per the spec the blob-store write is atomic
and fails with a storage error). -/
structure Env where
  authResult : Except String String
  formFile : Option FileData
  probe : ProbeRaw
  remuxExitCode : Nat
  remuxStderr : String
  s3WriteOk : Bool
deriving Repr

/-- Observable world state threaded through a run: the video database, the
set of local file paths currently on disk, the append-only log of local
paths written (in write order), and the blob store as a ledger of
`(key, content)` writes, newest first. -/
structure World where
  db : List Video
  files : List String
  log : List String
  s3 : List (String × String)
deriving DecidableEq, Repr

/-- `getVideo(cfg.db, videoId)` from `src/db/videos`: look the record up by
its identifier. -/
def getVideo (db : List Video) (videoId : String) : Option Video :=
  db.find? (fun v => v.id == videoId)

/-- `updateVideo(cfg.db, video)` from `src/db/videos`: replace the record
with the matching identifier. -/
def updateVideo (db : List Video) (video : Video) : List Video :=
  db.map (fun v => if v.id == video.id then video else v)

/-- `path.join("/tmp", videoId + ".mp4")` (src/unnamed/part_000, line 44):
the temporary path the raw payload is buffered to. -/
def tempFilePath (videoId : String) : String :=
  "/tmp/" ++ videoId ++ ".mp4"

/-- `const processedFilePath = filePath + "\".processed.mp4"`
(src/unnamed/part_000, line 110).  Note the stray quote character embedded
in the template: the output path actually contains a `"` before
`.processed.mp4`. -/
def processedFilePathOf (filePath : String) : String :=
  filePath ++ "\".processed.mp4"

/-- The path removed by the success-path cleanup,
`rm(tempFilePath + ".processed.mp4", { force: true })`
(src/unnamed/part_000, line 58). -/
def cleanupProcessedPath (filePath : String) : String :=
  filePath ++ ".processed.mp4"

/-- `const key = aspectRatio + "/" + videoId + ".mp4"`
(src/unnamed/part_000, line 48). -/
def storageKey (aspectRatio videoId : String) : String :=
  aspectRatio ++ "/" ++ videoId ++ ".mp4"

/-- `const videoURL = cfg.s3CfDistribution + "/" + key`
(src/unnamed/part_000, line 52). -/
def videoURLFor (cfg : ApiConfig) (key : String) : String :=
  cfg.s3CfDistribution ++ "/" ++ key

/-- `rm(p, { force: true })`: best-effort removal of a path from the local
disk (removing an absent path succeeds silently). -/
def removeFile (files : List String) (p : String) : List String :=
  files.filter (fun q => q ≠ p)

/-- `getVideoAspectRatio` (src/unnamed/part_000, lines 63-107) applied to
the observed `ffprobe` outcome: non-zero exit throws
`ffprobe failed: <stderr>`; missing or zero (falsy) width/height throws
`Could not read video dimensions`; otherwise the dimensions are classified. -/
def getVideoAspectRatio (p : ProbeRaw) : Except ApiError String :=
  if p.exitCode ≠ 0 then
    .error (.probeFailure ("ffprobe failed: " ++ p.stderr))
  else
    match p.dims with
    | none => .error (.probeFailure "Could not read video dimensions")
    | some (w, h) =>
      if w = 0 || h = 0 then
        .error (.probeFailure "Could not read video dimensions")
      else
        .ok (classify w h)

/-- `handlerUploadVideo` (src/unnamed/part_000, lines 12-61) as a function
from the oracle outcomes and the starting world to the response and the
final world.  The control flow follows the source line by line: route
parameter check, bearer-token validation, record lookup, ownership check,
form-file presence / size / content-type checks, buffering to
`tempFilePath`, probe + classification, fast-start remux, S3 upload under
`storageKey`, playback-URL record update, then `rm` of the two cleanup
paths and the 200 response.  No cleanup runs on any error path (the source
has no try/finally). -/
def handlerUploadVideo (cfg : ApiConfig) (env : Env) (videoIdParam : Option String)
    (w : World) : Except ApiError Video × World :=
  match videoIdParam with
  | none => (.error (.badRequest "Invalid video ID"), w)
  | some videoId =>
    match env.authResult with
    | .error e => (.error (.authFailure e), w)
    | .ok userID =>
      match getVideo w.db videoId with
      | none => (.error (.notFound "Couldn't find video"), w)
      | some video =>
        if video.userID ≠ userID then
          (.error (.userForbidden "Not authorized to update this video"), w)
        else
          match env.formFile with
          | none => (.error (.badRequest "Video file missing"), w)
          | some file =>
            if file.size > MAX_UPLOAD_SIZE then
              (.error (.badRequest "File exceeds size limit (1GB)"), w)
            else if file.type ≠ "video/mp4" then
              (.error (.badRequest "Invalid file type, only MP4 is allowed"), w)
            else
              let tmp := tempFilePath videoId
              let w1 : World :=
                { w with files := tmp :: w.files, log := w.log ++ [tmp] }
              match getVideoAspectRatio env.probe with
              | .error e => (.error e, w1)
              | .ok aspectRatio =>
                if env.remuxExitCode ≠ 0 then
                  (.error (.remuxFailure ("FFmpeg error: " ++ env.remuxStderr)), w1)
                else
                  let processed := processedFilePathOf tmp
                  let w2 : World :=
                    { w1 with files := processed :: w1.files,
                              log := w1.log ++ [processed] }
                  let key := storageKey aspectRatio videoId
                  if env.s3WriteOk = false then
                    (.error (.storageWriteFailure "Failed to upload video to S3"), w2)
                  else
                    let w3 : World := { w2 with s3 := (key, file.content) :: w2.s3 }
                    let video2 : Video :=
                      { video with videoURL := some (videoURLFor cfg key) }
                    let w4 : World := { w3 with db := updateVideo w3.db video2 }
                    let w5 : World :=
                      { w4 with files := removeFile (removeFile w4.files tmp) (cleanupProcessedPath tmp) }
                    (.ok video2, w5)

/-! ## Run lemmas for the upload orchestrator -/

/-- A probe with exit code 0 and non-zero parsed dimensions classifies them. -/
lemma getVideoAspectRatio_ok (p : ProbeRaw) (wd ht : Nat)
    (hpe : p.exitCode = 0) (hpd : p.dims = some (wd, ht))
    (hw : wd ≠ 0) (hht : ht ≠ 0) :
    getVideoAspectRatio p = .ok (classify wd ht) := by
  unfold getVideoAspectRatio
  rw [hpe, hpd]
  simp [hw, hht]

/-- Every error of `getVideoAspectRatio` is a `probeFailure`. -/
lemma getVideoAspectRatio_error_shape (p : ProbeRaw) (e : ApiError)
    (h : getVideoAspectRatio p = .error e) : ∃ m, e = .probeFailure m := by
  unfold getVideoAspectRatio at h
  split at h
  · exact ⟨_, (Except.error.injEq _ _).mp h.symm⟩
  · split at h
    · exact ⟨_, (Except.error.injEq _ _).mp h.symm⟩
    · split at h
      · exact ⟨_, (Except.error.injEq _ _).mp h.symm⟩
      · simp at h

/-- Full characterization of a successful run: every validation and
pipeline step passes, the processed copy is uploaded under
`storageKey (classify wd ht) vid`, the record's playback URL is set, and
the cleanup removes `tempFilePath vid` and `cleanupProcessedPath` of it. -/
lemma handlerUploadVideo_success_run (cfg : ApiConfig) (env : Env) (vid : String)
    (w : World) (uid : String) (video : Video) (file : FileData) (wd ht : Nat)
    (ha : env.authResult = .ok uid)
    (hv : getVideo w.db vid = some video)
    (ho : video.userID = uid)
    (hf : env.formFile = some file)
    (hsize : file.size ≤ MAX_UPLOAD_SIZE)
    (htype : file.type = "video/mp4")
    (hpe : env.probe.exitCode = 0)
    (hpd : env.probe.dims = some (wd, ht))
    (hw : wd ≠ 0) (hht : ht ≠ 0)
    (hre : env.remuxExitCode = 0)
    (hs3 : env.s3WriteOk = true) :
    handlerUploadVideo cfg env (some vid) w =
      (.ok { video with videoURL := some (videoURLFor cfg (storageKey (classify wd ht) vid)) },
       { db := updateVideo w.db { video with videoURL := some (videoURLFor cfg (storageKey (classify wd ht) vid)) },
         files := removeFile (removeFile (processedFilePathOf (tempFilePath vid) :: tempFilePath vid :: w.files) (tempFilePath vid)) (cleanupProcessedPath (tempFilePath vid)),
         log := w.log ++ [tempFilePath vid, processedFilePathOf (tempFilePath vid)],
         s3 := (storageKey (classify wd ht) vid, file.content) :: w.s3 }) := by
  have hprobe := getVideoAspectRatio_ok env.probe wd ht hpe hpd hw hht
  have hns : ¬ (file.size > MAX_UPLOAD_SIZE) := by omega
  unfold handlerUploadVideo
  simp only [ha, hv, hf, hprobe]
  simp [ho, hns, htype, hre, hs3]

/-- A run against a record the authenticated user does not own fails with
`UserForbiddenError` and leaves the world untouched. -/
lemma handlerUploadVideo_forbidden_run (cfg : ApiConfig) (env : Env) (vid : String)
    (w : World) (uid : String) (video : Video)
    (ha : env.authResult = .ok uid)
    (hv : getVideo w.db vid = some video)
    (ho : video.userID ≠ uid) :
    handlerUploadVideo cfg env (some vid) w =
      (.error (.userForbidden "Not authorized to update this video"), w) := by
  unfold handlerUploadVideo
  simp only [ha, hv]
  simp [ho]

/-- A run with an oversized payload fails with `BadRequest` and leaves the
world untouched. -/
lemma handlerUploadVideo_oversize_run (cfg : ApiConfig) (env : Env) (vid : String)
    (w : World) (uid : String) (video : Video) (file : FileData)
    (ha : env.authResult = .ok uid)
    (hv : getVideo w.db vid = some video)
    (ho : video.userID = uid)
    (hf : env.formFile = some file)
    (hbig : file.size > MAX_UPLOAD_SIZE) :
    handlerUploadVideo cfg env (some vid) w =
      (.error (.badRequest "File exceeds size limit (1GB)"), w) := by
  unfold handlerUploadVideo
  simp only [ha, hv, hf]
  simp [ho, hbig]

/-- A run whose remux step exits non-zero fails with the `RemuxFailure`
error, and the final world still holds the raw buffered file: the source
has no try/finally, so no cleanup code runs on this path. -/
lemma handlerUploadVideo_remux_fail_run (cfg : ApiConfig) (env : Env) (vid : String)
    (w : World) (uid : String) (video : Video) (file : FileData) (wd ht : Nat)
    (ha : env.authResult = .ok uid)
    (hv : getVideo w.db vid = some video)
    (ho : video.userID = uid)
    (hf : env.formFile = some file)
    (hsize : file.size ≤ MAX_UPLOAD_SIZE)
    (htype : file.type = "video/mp4")
    (hpe : env.probe.exitCode = 0)
    (hpd : env.probe.dims = some (wd, ht))
    (hw : wd ≠ 0) (hht : ht ≠ 0)
    (hre : env.remuxExitCode ≠ 0) :
    handlerUploadVideo cfg env (some vid) w =
      (.error (.remuxFailure ("FFmpeg error: " ++ env.remuxStderr)),
       { w with files := tempFilePath vid :: w.files,
                log := w.log ++ [tempFilePath vid] }) := by
  have hprobe := getVideoAspectRatio_ok env.probe wd ht hpe hpd hw hht
  have hns : ¬ (file.size > MAX_UPLOAD_SIZE) := by omega
  unfold handlerUploadVideo
  simp only [ha, hv, hf, hprobe]
  simp [ho, hns, htype, hre]

/-- Every run either errors with the database and blob store untouched, or
succeeds, in which case the blob-store write succeeded. -/
lemma handlerUploadVideo_outcome (cfg : ApiConfig) (env : Env)
    (vidp : Option String) (w : World) :
    (∃ e, (handlerUploadVideo cfg env vidp w).1 = .error e ∧
       (handlerUploadVideo cfg env vidp w).2.db = w.db ∧
       (handlerUploadVideo cfg env vidp w).2.s3 = w.s3) ∨
    (∃ v2, (handlerUploadVideo cfg env vidp w).1 = .ok v2 ∧
       env.s3WriteOk = true) := by
  unfold handlerUploadVideo
  split
  · exact Or.inl ⟨_, rfl, rfl, rfl⟩
  · split
    · exact Or.inl ⟨_, rfl, rfl, rfl⟩
    · split
      · exact Or.inl ⟨_, rfl, rfl, rfl⟩
      · split
        · exact Or.inl ⟨_, rfl, rfl, rfl⟩
        · split
          · exact Or.inl ⟨_, rfl, rfl, rfl⟩
          · split
            · exact Or.inl ⟨_, rfl, rfl, rfl⟩
            · split
              · exact Or.inl ⟨_, rfl, rfl, rfl⟩
              · split
                · exact Or.inl ⟨_, rfl, rfl, rfl⟩
                · split
                  · exact Or.inl ⟨_, rfl, rfl, rfl⟩
                  · split
                    · exact Or.inl ⟨_, rfl, rfl, rfl⟩
                    · rename_i hs3f
                      refine Or.inr ⟨_, rfl, ?_⟩
                      revert hs3f
                      cases env.s3WriteOk <;> simp

/-- Once validation passes, the raw payload is buffered: the write log of
the run extends the starting log with `tempFilePath vid` first, whatever
the probe, remux, and storage outcomes are. -/
lemma handlerUploadVideo_buffers (cfg : ApiConfig) (env : Env) (vid : String)
    (w : World) (uid : String) (video : Video) (file : FileData)
    (ha : env.authResult = .ok uid)
    (hv : getVideo w.db vid = some video)
    (ho : video.userID = uid)
    (hf : env.formFile = some file)
    (hsize : file.size ≤ MAX_UPLOAD_SIZE)
    (htype : file.type = "video/mp4") :
    ∃ r, (handlerUploadVideo cfg env (some vid) w).2.log =
      w.log ++ tempFilePath vid :: r := by
  have hns : ¬ (file.size > MAX_UPLOAD_SIZE) := by omega
  unfold handlerUploadVideo
  simp only [ha, hv, hf]
  simp only [ho, ne_eq, not_true_eq_false, if_false, hns, htype,
    not_false_eq_true, if_true]
  split
  · exact ⟨[], by simp⟩
  · split
    · exact ⟨[], by simp⟩
    · split
      · exact ⟨[processedFilePathOf (tempFilePath vid)], by simp⟩
      · exact ⟨[processedFilePathOf (tempFilePath vid)], by simp⟩

/-! ## Concrete fixtures used by witnesses and counterexamples -/

/-- A stored record owned by user `alice`. -/
def videoA : Video :=
  { id := "v", userID := "alice", videoURL := none, thumbnailURL := none }

/-- A sample configuration. -/
def cfg0 : ApiConfig :=
  { jwtSecret := "secret", assetsRoot := "assets", s3Bucket := "bucket",
    s3Region := "region", s3CfDistribution := "https://cdn.example.com",
    port := "8091" }

/-- A starting world holding only `videoA`, with empty disk and store. -/
def wA : World := { db := [videoA], files := [], log := [], s3 := [] }

/-- A small valid MP4 upload. -/
def fileA : FileData := { size := 1024, type := "video/mp4", content := "payload" }

/-- A probe observing a 1280x720 stream. -/
def probeA : ProbeRaw := { exitCode := 0, dims := some (1280, 720), stderr := "" }

/-- Oracle outcomes for a fully successful run by `alice`. -/
def envOk : Env :=
  { authResult := .ok "alice", formFile := some fileA, probe := probeA,
    remuxExitCode := 0, remuxStderr := "", s3WriteOk := true }

/-- Same run but the remux tool exits 1. -/
def envRemuxFail : Env := { envOk with remuxExitCode := 1, remuxStderr := "boom" }

/-- Same run but authenticated as `mallory`, who does not own `videoA`. -/
def envForbidden : Env := { envOk with authResult := .ok "mallory" }

/-- A payload one byte over the 1 GiB ceiling. -/
def fileBig : FileData := { fileA with size := 2 ^ 30 + 1 }

/-- Run with the oversized payload. -/
def envBig : Env := { envOk with formFile := some fileBig }

/-- A payload of exactly 1 GiB. -/
def fileAtLimit : FileData := { fileA with size := 2 ^ 30 }

/-- Run with the exactly-1-GiB payload. -/
def envAtLimit : Env := { envOk with formFile := some fileAtLimit }

/-- A probe observing a 1920x1080 stream (same class as `probeA`). -/
def probeB : ProbeRaw := { exitCode := 0, dims := some (1920, 1080), stderr := "" }

/-- A different payload for a re-upload of the same video. -/
def fileB : FileData := { size := 2048, type := "video/mp4", content := "payload2" }

/-- Oracle outcomes for a successful re-upload with different bytes and
dimensions of the same class. -/
def envOk2 : Env := { envOk with formFile := some fileB, probe := probeB }

/-! ## Aspect classifier: C3 and C9 -/

/-- The floored quotient is `1` exactly when the ratio lies in `[1, 2)`. -/
lemma classify_div_eq_one_iff (w h : Nat) (hh : 0 < h) :
    w / h = 1 ↔ h ≤ w ∧ w < 2 * h := by
  constructor
  · intro e
    refine ⟨(Nat.one_le_div_iff hh).mp (by omega), ?_⟩
    have := (Nat.div_lt_iff_lt_mul hh).mp (show w / h < 2 by omega)
    omega
  · intro hw
    have g1 : 1 ≤ w / h := (Nat.one_le_div_iff hh).mpr hw.1
    have g2 : w / h < 2 := (Nat.div_lt_iff_lt_mul hh).mpr (by omega)
    omega

/-- C3 counterexample: an exactly-square video is classified `"landscape"`
by the code (`Math.floor(1/1) = 1 = Math.floor(16/9)`), not `"other"` as
the claim states. -/
theorem classify_square_landscape_cex :
    classify 1 1 = "landscape" ∧ classify 1 1 ≠ "other" := by decide

/-- C3 (amended): for `height > 0` the classifier returns `"landscape"`
exactly when the ratio lies in `[1, 2)` — which includes the exactly-square
case — `"portrait"` exactly when the ratio lies in `[0, 1)`, and `"other"`
exactly when the ratio is at least `2`; in particular
`classify 16 9 = "landscape"`, `classify 9 16 = "portrait"`, and
`classify 1 1 = "landscape"` (not `"other"`). -/
theorem classify_partition (w h : Nat) (hh : 0 < h) :
    (classify w h = "landscape" ↔ h ≤ w ∧ w < 2 * h) ∧
    (classify w h = "portrait" ↔ w < h) ∧
    (classify w h = "other" ↔ 2 * h ≤ w) ∧
    classify 16 9 = "landscape" ∧ classify 9 16 = "portrait" ∧
    classify 1 1 = "landscape" := by
  have hd1 : w / h = 1 ↔ h ≤ w ∧ w < 2 * h := classify_div_eq_one_iff w h hh
  have hd0 : w / h = 0 ↔ w < h := Nat.div_eq_zero_iff hh
  have htri : (w / h = 1 ∧ h ≤ w ∧ w < 2 * h) ∨ (w / h = 0 ∧ w < h) ∨
      (w / h ≠ 0 ∧ w / h ≠ 1 ∧ 2 * h ≤ w) := by
    rcases Nat.lt_or_ge w h with hlt | hge
    · exact Or.inr (Or.inl ⟨hd0.mpr hlt, hlt⟩)
    · rcases Nat.lt_or_ge w (2 * h) with hlt2 | hge2
      · exact Or.inl ⟨hd1.mpr ⟨hge, hlt2⟩, hge, hlt2⟩
      · refine Or.inr (Or.inr ⟨?_, ?_, hge2⟩)
        · intro e
          exact absurd (hd0.mp e) (by omega)
        · intro e
          exact absurd (hd1.mp e) (by omega)
  have e169 : (16 : Nat) / 9 = 1 := rfl
  have e916 : (9 : Nat) / 16 = 0 := rfl
  have hmain : (classify w h = "landscape" ↔ h ≤ w ∧ w < 2 * h) ∧
      (classify w h = "portrait" ↔ w < h) ∧
      (classify w h = "other" ↔ 2 * h ≤ w) := by
    unfold classify
    rw [e169, e916]
    rcases htri with ⟨e, ha, hb⟩ | ⟨e, ha⟩ | ⟨e0, e1, ha⟩
    · rw [if_pos e]
      exact ⟨iff_of_true rfl ⟨ha, hb⟩, iff_of_false (by decide) (by omega),
        iff_of_false (by decide) (by omega)⟩
    · rw [if_neg (by omega), if_pos e]
      exact ⟨iff_of_false (by decide) (by omega), iff_of_true rfl ha,
        iff_of_false (by decide) (by omega)⟩
    · rw [if_neg e1, if_neg e0]
      exact ⟨iff_of_false (by decide) (by omega), iff_of_false (by decide) (by omega),
        iff_of_true rfl ha⟩
  exact ⟨hmain.1, hmain.2.1, hmain.2.2, by decide, by decide, by decide⟩

/-- Witness for `classify_partition` at width 16, height 9. -/
theorem classify_partition_witness :
    (classify 16 9 = "landscape" ↔ 9 ≤ 16 ∧ 16 < 2 * 9) ∧
    (classify 16 9 = "portrait" ↔ 16 < 9) ∧
    (classify 16 9 = "other" ↔ 2 * 9 ≤ 16) ∧
    classify 16 9 = "landscape" ∧ classify 9 16 = "portrait" ∧
    classify 1 1 = "landscape" :=
  classify_partition 16 9 (by decide)

/-- C9: for `height > 0` the classifier always returns one of the three
classes, and it is invariant under scaling both dimensions by the same
positive factor (it depends on the floored ratio only). -/
theorem classify_total_and_scale_invariant (w h k : Nat) (hh : 0 < h)
    (hk : 0 < k) :
    (classify w h = "landscape" ∨ classify w h = "portrait" ∨
      classify w h = "other") ∧
    classify (k * w) (k * h) = classify w h := by
  constructor
  · unfold classify
    split
    · exact Or.inl rfl
    · split
      · exact Or.inr (Or.inl rfl)
      · exact Or.inr (Or.inr rfl)
  · unfold classify
    rw [Nat.mul_div_mul_left w h hk]

/-- Witness for `classify_total_and_scale_invariant` at 16×9 scaled by 2. -/
theorem classify_total_and_scale_invariant_witness :
    (classify 16 9 = "landscape" ∨ classify 16 9 = "portrait" ∨
      classify 16 9 = "other") ∧
    classify (2 * 16) (2 * 9) = classify 16 9 :=
  classify_total_and_scale_invariant 16 9 2 (by decide) (by decide)

/-! ## Upload orchestrator claims -/

/-- C1 counterexample: on a concrete run in which the fast-start remux
exits non-zero, the handler propagates the `RemuxFailure` error while the
raw buffered temporary file `/tmp/v.mp4` is still on disk — it is not
deleted before the error propagates, contrary to the claim. -/
theorem uploadVideo_remux_fail_raw_file_remains_cex :
    (handlerUploadVideo cfg0 envRemuxFail (some "v") wA).1 =
      .error (.remuxFailure "FFmpeg error: boom") ∧
    tempFilePath "v" ∈ (handlerUploadVideo cfg0 envRemuxFail (some "v") wA).2.files :=
  ⟨rfl, by decide⟩

/-- C1 (amended): if the fast-start remux step fails with a non-zero tool
exit, `handlerUploadVideo` propagates the error with no object written to
the blob store and no mutation of the VideoRecord, but the raw buffered
temporary file is NOT deleted: the handler has no error-path cleanup, so
the file is still on disk when the error propagates. -/
theorem uploadVideo_remux_fail_no_write_no_mutation (cfg : ApiConfig)
    (env : Env) (vid : String) (w : World) (uid : String) (video : Video)
    (file : FileData) (wd ht : Nat)
    (ha : env.authResult = .ok uid)
    (hv : getVideo w.db vid = some video)
    (ho : video.userID = uid)
    (hf : env.formFile = some file)
    (hsize : file.size ≤ MAX_UPLOAD_SIZE)
    (htype : file.type = "video/mp4")
    (hpe : env.probe.exitCode = 0)
    (hpd : env.probe.dims = some (wd, ht))
    (hw : wd ≠ 0) (hht : ht ≠ 0)
    (hre : env.remuxExitCode ≠ 0) :
    (handlerUploadVideo cfg env (some vid) w).1 =
      .error (.remuxFailure ("FFmpeg error: " ++ env.remuxStderr)) ∧
    (handlerUploadVideo cfg env (some vid) w).2.s3 = w.s3 ∧
    (handlerUploadVideo cfg env (some vid) w).2.db = w.db ∧
    (handlerUploadVideo cfg env (some vid) w).2.files =
      tempFilePath vid :: w.files := by
  rw [handlerUploadVideo_remux_fail_run cfg env vid w uid video file wd ht
    ha hv ho hf hsize htype hpe hpd hw hht hre]
  exact ⟨rfl, rfl, rfl, rfl⟩

/-- Witness for the amended C1 theorem at a concrete failing-remux run. -/
theorem uploadVideo_remux_fail_no_write_no_mutation_witness :
    (handlerUploadVideo cfg0 envRemuxFail (some "v") wA).1 =
      .error (.remuxFailure ("FFmpeg error: " ++ envRemuxFail.remuxStderr)) ∧
    (handlerUploadVideo cfg0 envRemuxFail (some "v") wA).2.s3 = wA.s3 ∧
    (handlerUploadVideo cfg0 envRemuxFail (some "v") wA).2.db = wA.db ∧
    (handlerUploadVideo cfg0 envRemuxFail (some "v") wA).2.files =
      tempFilePath "v" :: wA.files :=
  uploadVideo_remux_fail_no_write_no_mutation cfg0 envRemuxFail "v" wA
    "alice" videoA fileA 1280 720 rfl rfl rfl rfl (by decide) rfl rfl rfl
    (by decide) (by decide) (by decide)

/-- C2: on every run that exits with an error the stored database is left
completely unmodified; the record update runs only after a successful
blob-store write (a successful response implies the store write
succeeded); and in particular an authenticated non-owner gets
`UserForbiddenError` with the whole world unchanged. -/
theorem uploadVideo_record_unmodified_on_error (cfg : ApiConfig) (env : Env)
    (vidp : Option String) (w : World) :
    (∀ e, (handlerUploadVideo cfg env vidp w).1 = .error e →
       (handlerUploadVideo cfg env vidp w).2.db = w.db) ∧
    (∀ v2, (handlerUploadVideo cfg env vidp w).1 = .ok v2 →
       env.s3WriteOk = true) ∧
    (∀ vid video uid, vidp = some vid → env.authResult = .ok uid →
       getVideo w.db vid = some video → video.userID ≠ uid →
       (handlerUploadVideo cfg env vidp w).1 =
         .error (.userForbidden "Not authorized to update this video") ∧
       (handlerUploadVideo cfg env vidp w).2 = w) := by
  refine ⟨?_, ?_, ?_⟩
  · intro e he
    rcases handlerUploadVideo_outcome cfg env vidp w with
      ⟨e2, he2, hdb, hs3⟩ | ⟨v2, hok, hws⟩
    · exact hdb
    · simp [hok] at he
  · intro v2 hok
    rcases handlerUploadVideo_outcome cfg env vidp w with
      ⟨e2, he2, hdb, hs3⟩ | ⟨v3, hok2, hws⟩
    · simp [he2] at hok
    · exact hws
  · intro vid video uid hvp ha hvd ho
    subst hvp
    rw [handlerUploadVideo_forbidden_run cfg env vid w uid video ha hvd ho]
    exact ⟨rfl, rfl⟩

/-- Witness for C2 at a concrete non-owner run. -/
theorem uploadVideo_record_unmodified_on_error_witness :
    (handlerUploadVideo cfg0 envForbidden (some "v") wA).1 =
      .error (.userForbidden "Not authorized to update this video") ∧
    (handlerUploadVideo cfg0 envForbidden (some "v") wA).2 = wA :=
  (uploadVideo_record_unmodified_on_error cfg0 envForbidden (some "v") wA).2.2
    "v" videoA "mallory" rfl rfl rfl (by decide)

/-- C4: the storage key is `storageKey (classify wd ht) vid`, i.e.
`<class>/<videoId>.mp4`, a function of the aspect class and the video
identifier alone; two successful runs for the same identifier whose probes
yield the same class write their objects to the same key. -/
theorem uploadVideo_storage_key_deterministic (cfg cfg2 : ApiConfig)
    (env env2 : Env) (vid : String) (w w2 : World) (uid uid2 : String)
    (video video2 : Video) (file file2 : FileData) (wd ht wd2 ht2 : Nat)
    (ha : env.authResult = .ok uid)
    (hv : getVideo w.db vid = some video)
    (ho : video.userID = uid)
    (hf : env.formFile = some file)
    (hsize : file.size ≤ MAX_UPLOAD_SIZE)
    (htype : file.type = "video/mp4")
    (hpe : env.probe.exitCode = 0)
    (hpd : env.probe.dims = some (wd, ht))
    (hw : wd ≠ 0) (hht : ht ≠ 0)
    (hre : env.remuxExitCode = 0)
    (hs3 : env.s3WriteOk = true)
    (ha2 : env2.authResult = .ok uid2)
    (hv2 : getVideo w2.db vid = some video2)
    (ho2 : video2.userID = uid2)
    (hf2 : env2.formFile = some file2)
    (hsize2 : file2.size ≤ MAX_UPLOAD_SIZE)
    (htype2 : file2.type = "video/mp4")
    (hpe2 : env2.probe.exitCode = 0)
    (hpd2 : env2.probe.dims = some (wd2, ht2))
    (hw2 : wd2 ≠ 0) (hht2 : ht2 ≠ 0)
    (hre2 : env2.remuxExitCode = 0)
    (hs32 : env2.s3WriteOk = true)
    (hcls : classify wd ht = classify wd2 ht2) :
    (handlerUploadVideo cfg env (some vid) w).2.s3 =
      (storageKey (classify wd ht) vid, file.content) :: w.s3 ∧
    (handlerUploadVideo cfg2 env2 (some vid) w2).2.s3 =
      (storageKey (classify wd ht) vid, file2.content) :: w2.s3 ∧
    storageKey (classify wd ht) vid = classify wd ht ++ "/" ++ vid ++ ".mp4" := by
  rw [handlerUploadVideo_success_run cfg env vid w uid video file wd ht
      ha hv ho hf hsize htype hpe hpd hw hht hre hs3,
    handlerUploadVideo_success_run cfg2 env2 vid w2 uid2 video2 file2 wd2 ht2
      ha2 hv2 ho2 hf2 hsize2 htype2 hpe2 hpd2 hw2 hht2 hre2 hs32,
    hcls]
  exact ⟨rfl, rfl, rfl⟩

/-- Witness for C4: two successful uploads of `"v"` (1280x720 and then
1920x1080, both landscape) write to the same key `landscape/v.mp4`. -/
theorem uploadVideo_storage_key_deterministic_witness :
    (handlerUploadVideo cfg0 envOk (some "v") wA).2.s3 =
      (storageKey (classify 1280 720) "v", fileA.content) :: wA.s3 ∧
    (handlerUploadVideo cfg0 envOk2 (some "v") wA).2.s3 =
      (storageKey (classify 1280 720) "v", fileB.content) :: wA.s3 ∧
    storageKey (classify 1280 720) "v" = classify 1280 720 ++ "/" ++ "v" ++ ".mp4" :=
  uploadVideo_storage_key_deterministic cfg0 cfg0 envOk envOk2 "v" wA wA
    "alice" "alice" videoA videoA fileA fileB 1280 720 1920 1080
    rfl rfl rfl rfl (by decide) rfl rfl rfl (by decide) (by decide) rfl rfl
    rfl rfl rfl rfl (by decide) rfl rfl rfl (by decide) (by decide) rfl rfl
    (by decide)

/-- C5 at the failing input (code defect): a fully successful run returns
the 200 response and deletes the raw buffered file, but the fast-start
processed copy is still on disk when the handler returns:
`processVideoForFastStart` creates it at `/tmp/v.mp4".processed.mp4`
(stray quote embedded in the path template) while the success-path cleanup
removes `/tmp/v.mp4.processed.mp4`, a path that never existed. -/
theorem uploadVideo_success_leaves_processed_artifact :
    (handlerUploadVideo cfg0 envOk (some "v") wA).1 =
      .ok { videoA with videoURL := some "https://cdn.example.com/landscape/v.mp4" } ∧
    (handlerUploadVideo cfg0 envOk (some "v") wA).2.files =
      [processedFilePathOf (tempFilePath "v")] ∧
    processedFilePathOf (tempFilePath "v") ≠ cleanupProcessedPath (tempFilePath "v") :=
  ⟨rfl, by decide, by decide⟩

/-- C6: with the request validated up to the file check, a payload larger
than `MAX_UPLOAD_SIZE = 2^30` bytes fails with `BadRequest` and leaves the
world untouched (in particular no temporary file is created), while a
payload of exactly `2^30` bytes never produces the size error. -/
theorem uploadVideo_size_limit (cfg : ApiConfig) (env : Env) (vid : String)
    (w : World) (uid : String) (video : Video) (file : FileData)
    (ha : env.authResult = .ok uid)
    (hv : getVideo w.db vid = some video)
    (ho : video.userID = uid)
    (hf : env.formFile = some file) :
    (file.size > MAX_UPLOAD_SIZE →
       handlerUploadVideo cfg env (some vid) w =
         (.error (.badRequest "File exceeds size limit (1GB)"), w)) ∧
    (file.size = MAX_UPLOAD_SIZE →
       (handlerUploadVideo cfg env (some vid) w).1 ≠
         .error (.badRequest "File exceeds size limit (1GB)")) ∧
    MAX_UPLOAD_SIZE = 2 ^ 30 := by
  refine ⟨fun hbig =>
    handlerUploadVideo_oversize_run cfg env vid w uid video file ha hv ho hf hbig,
    ?_, by decide⟩
  intro hsz
  have hns : ¬ (file.size > MAX_UPLOAD_SIZE) := by omega
  unfold handlerUploadVideo
  simp only [ha, hv, hf]
  simp only [ho, ne_eq, not_true_eq_false, if_false, hns, not_false_eq_true,
    if_true]
  split
  · simp
  · split
    · rename_i e heq
      obtain ⟨m, rfl⟩ := getVideoAspectRatio_error_shape _ _ heq
      simp
    · split
      · simp
      · split
        · simp
        · simp

/-- Witness for C6: the oversized run fails as described and the
exactly-at-limit run does not produce the size error. -/
theorem uploadVideo_size_limit_witness :
    handlerUploadVideo cfg0 envBig (some "v") wA =
      (.error (.badRequest "File exceeds size limit (1GB)"), wA) ∧
    (handlerUploadVideo cfg0 envAtLimit (some "v") wA).1 ≠
      .error (.badRequest "File exceeds size limit (1GB)") :=
  ⟨(uploadVideo_size_limit cfg0 envBig "v" wA "alice" videoA fileBig
      rfl rfl rfl rfl).1 (by decide),
   (uploadVideo_size_limit cfg0 envAtLimit "v" wA "alice" videoA fileAtLimit
      rfl rfl rfl rfl).2.1 rfl⟩

/-- C7: on a successful upload the playback URL written into the record is
the configured distribution base address, a slash, and the storage key. -/
theorem uploadVideo_playback_url (cfg : ApiConfig) (env : Env) (vid : String)
    (w : World) (uid : String) (video : Video) (file : FileData) (wd ht : Nat)
    (ha : env.authResult = .ok uid)
    (hv : getVideo w.db vid = some video)
    (ho : video.userID = uid)
    (hf : env.formFile = some file)
    (hsize : file.size ≤ MAX_UPLOAD_SIZE)
    (htype : file.type = "video/mp4")
    (hpe : env.probe.exitCode = 0)
    (hpd : env.probe.dims = some (wd, ht))
    (hw : wd ≠ 0) (hht : ht ≠ 0)
    (hre : env.remuxExitCode = 0)
    (hs3 : env.s3WriteOk = true) :
    (handlerUploadVideo cfg env (some vid) w).1 =
      .ok { video with videoURL := some (cfg.s3CfDistribution ++ "/" ++ storageKey (classify wd ht) vid) } := by
  rw [handlerUploadVideo_success_run cfg env vid w uid video file wd ht
    ha hv ho hf hsize htype hpe hpd hw hht hre hs3]
  rfl

/-- Witness for C7 at the concrete successful run. -/
theorem uploadVideo_playback_url_witness :
    (handlerUploadVideo cfg0 envOk (some "v") wA).1 =
      .ok { videoA with videoURL := some (cfg0.s3CfDistribution ++ "/" ++ storageKey (classify 1280 720) "v") } :=
  uploadVideo_playback_url cfg0 envOk "v" wA "alice" videoA fileA 1280 720
    rfl rfl rfl rfl (by decide) rfl rfl rfl (by decide) (by decide) rfl rfl

/-- C8: once validation passes, the raw payload is buffered to
`tempFilePath vid = "/tmp/" ++ vid ++ ".mp4"`, a deterministic function of
the video identifier alone: any two runs for the same identifier, whatever
their configurations, payload bytes, or downstream outcomes, write their
first temporary file to that same path. -/
theorem uploadVideo_buffer_path_deterministic (cfg cfg2 : ApiConfig)
    (env env2 : Env) (vid : String) (w w2 : World) (uid uid2 : String)
    (video video2 : Video) (file file2 : FileData)
    (ha : env.authResult = .ok uid)
    (hv : getVideo w.db vid = some video)
    (ho : video.userID = uid)
    (hf : env.formFile = some file)
    (hsize : file.size ≤ MAX_UPLOAD_SIZE)
    (htype : file.type = "video/mp4")
    (ha2 : env2.authResult = .ok uid2)
    (hv2 : getVideo w2.db vid = some video2)
    (ho2 : video2.userID = uid2)
    (hf2 : env2.formFile = some file2)
    (hsize2 : file2.size ≤ MAX_UPLOAD_SIZE)
    (htype2 : file2.type = "video/mp4") :
    (∃ r, (handlerUploadVideo cfg env (some vid) w).2.log =
        w.log ++ tempFilePath vid :: r) ∧
    (∃ r, (handlerUploadVideo cfg2 env2 (some vid) w2).2.log =
        w2.log ++ tempFilePath vid :: r) ∧
    tempFilePath vid = "/tmp/" ++ vid ++ ".mp4" :=
  ⟨handlerUploadVideo_buffers cfg env vid w uid video file
      ha hv ho hf hsize htype,
   handlerUploadVideo_buffers cfg2 env2 vid w2 uid2 video2 file2
      ha2 hv2 ho2 hf2 hsize2 htype2,
   rfl⟩

/-- Witness for C8: a successful run and a failing-remux run for the same
identifier both buffer to `/tmp/v.mp4`. -/
theorem uploadVideo_buffer_path_deterministic_witness :
    (∃ r, (handlerUploadVideo cfg0 envOk (some "v") wA).2.log =
        wA.log ++ tempFilePath "v" :: r) ∧
    (∃ r, (handlerUploadVideo cfg0 envRemuxFail (some "v") wA).2.log =
        wA.log ++ tempFilePath "v" :: r) ∧
    tempFilePath "v" = "/tmp/" ++ "v" ++ ".mp4" :=
  uploadVideo_buffer_path_deterministic cfg0 cfg0 envOk envRemuxFail "v" wA wA
    "alice" "alice" videoA videoA fileA fileA
    rfl rfl rfl rfl (by decide) rfl rfl rfl rfl rfl (by decide) rfl

/-! ## Thumbnail handlers (src/api/thumbnails.ts): C10 -/

/-- `type Thumbnail = { data, mediaType }` (thumbnails.ts, lines 10-13). -/
structure Thumbnail where
  data : String
  mediaType : String
deriving DecidableEq, Repr

/-- The module-level `videoThumbnails: Map<string, Thumbnail>` as an
association list, newest entry first. -/
abbrev ThumbMap := List (String × Thumbnail)

/-- `videoThumbnails.get(k)`. -/
def thumbGet (m : ThumbMap) (k : String) : Option Thumbnail :=
  (m.find? (fun p => p.1 == k)).map (fun p => p.2)

/-- `videoThumbnails.set(k, t)` (later entries shadow earlier ones). -/
def thumbSet (m : ThumbMap) (k : String) (t : Thumbnail) : ThumbMap :=
  (k, t) :: m

/-- `mediaType.split("/")[1]`. -/
def extOf (mediaType : String) : String :=
  ((mediaType.splitOn "/").drop 1).headD ""

/-- Oracle inputs of `handlerUploadThumbnail`: the JWT validation outcome,
the form file, and the name generated by
`randomBytes(32).toString("base64url")`. -/
structure ThumbEnv where
  authResult : Except String String
  formFile : Option FileData
  fileName : String
deriving Repr

/-- `handlerUploadThumbnail` (thumbnails.ts, lines 41-96): route-parameter
check, JWT validation, form-file presence / 10 MB size / image content-type
checks, record lookup and ownership check; then the in-memory entry is
stored under `env.fileName` — the randomly generated asset name, not the
video identifier — the record's thumbnail URL is set and the record
updated.  (The `Bun.write` of the asset file to local disk does not touch
the map or the database and is not modelled.)  Returns the response, the
updated database, and the updated thumbnail map. -/
def handlerUploadThumbnail (cfg : ApiConfig) (env : ThumbEnv)
    (videoIdParam : Option String) (db : List Video) (m : ThumbMap) :
    Except ApiError Video × List Video × ThumbMap :=
  match videoIdParam with
  | none => (.error (.badRequest "Invalid video ID"), db, m)
  | some videoId =>
    match env.authResult with
    | .error e => (.error (.authFailure e), db, m)
    | .ok userID =>
      match env.formFile with
      | none => (.error (.badRequest "Thumbnail file missing"), db, m)
      | some file =>
        if file.size > 10 * 1024 * 1024 then
          (.error (.badRequest "Thumbnail file exceeds the maximum allowed size of 10MB"), db, m)
        else if file.type ≠ "image/jpeg" ∧ file.type ≠ "image/png" then
          (.error (.badRequest "Thumbnail should be image image/jpeg or image/png"), db, m)
        else
          match getVideo db videoId with
          | none => (.error (.notFound "Couldn't find video"), db, m)
          | some video =>
            if video.userID ≠ userID then
              (.error (.userForbidden "Not authorized to update this video"), db, m)
            else
              let m2 := thumbSet m env.fileName
                { data := file.content, mediaType := file.type }
              let video2 : Video :=
                { video with thumbnailURL := some ("http://localhost:" ++ cfg.port ++ "/assets/" ++ env.fileName ++ "." ++ extOf file.type) }
              (.ok video2, updateVideo db video2, m2)

/-- `handlerGetThumbnail` (thumbnails.ts, lines 17-39): route-parameter
check, record lookup, then `videoThumbnails.get(videoId)` — the lookup key
is the VIDEO identifier. -/
def handlerGetThumbnail (videoIdParam : Option String) (db : List Video)
    (m : ThumbMap) : Except ApiError Thumbnail :=
  match videoIdParam with
  | none => .error (.badRequest "Invalid video ID")
  | some videoId =>
    match getVideo db videoId with
    | none => .error (.notFound "Couldn't find video")
    | some _ =>
      match thumbGet m videoId with
      | none => .error (.notFound "Thumbnail not found")
      | some t => .ok t

/-- A record found by `getVideo` carries the identifier it was looked up
under. -/
lemma getVideo_id (db : List Video) (vid : String) (v : Video)
    (h : getVideo db vid = some v) : v.id = vid := by
  have := List.find?_some h
  simpa using this

/-- After `updateVideo` with a record whose identifier is `vid`, looking
`vid` up returns that record (provided some record with identifier `vid`
was present). -/
lemma getVideo_updateVideo (db : List Video) (vid : String) (v2 : Video)
    (hid : v2.id = vid) (h : (getVideo db vid).isSome) :
    getVideo (updateVideo db v2) vid = some v2 := by
  induction db with
  | nil => simp [getVideo] at h
  | cons x xs ih =>
    by_cases hx : x.id = vid
    · have hbeq : (x.id == v2.id) = true := by simp [hx, hid]
      unfold updateVideo getVideo
      simp only [List.map_cons, hbeq, if_true]
      exact List.find?_cons_of_pos _ (by simp [hid])
    · have hbeq : (x.id == v2.id) = false := by simp [hid, hx]
      have h2 : (getVideo xs vid).isSome := by
        unfold getVideo at h
        rw [List.find?_cons_of_neg _ (by simp [hx])] at h
        exact h
      have ih2 := ih h2
      unfold updateVideo getVideo
      simp only [List.map_cons, hbeq, Bool.false_eq_true, if_false]
      rw [List.find?_cons_of_neg _ (by simp [hx])]
      exact ih2

/-- C10: after any successful `handlerUploadThumbnail` for a video
identifier (the generated asset name being distinct from that identifier,
and no entry for the identifier pre-existing in the map), a
`handlerGetThumbnail` for the same identifier still fails with
`NotFoundError` "Thumbnail not found": the upload stores the entry under
the generated file name while the get handler looks it up under the video
identifier, so the put/get round trip never succeeds. -/
theorem thumbnail_upload_get_roundtrip_fails (cfg : ApiConfig)
    (env : ThumbEnv) (vid : String) (db : List Video) (m : ThumbMap)
    (uid : String) (video : Video) (file : FileData)
    (ha : env.authResult = .ok uid)
    (hf : env.formFile = some file)
    (hsize : file.size ≤ 10 * 1024 * 1024)
    (htype : file.type = "image/jpeg" ∨ file.type = "image/png")
    (hv : getVideo db vid = some video)
    (ho : video.userID = uid)
    (hne : env.fileName ≠ vid)
    (hm : thumbGet m vid = none) :
    (∃ v2, (handlerUploadThumbnail cfg env (some vid) db m).1 = .ok v2) ∧
    handlerGetThumbnail (some vid)
      (handlerUploadThumbnail cfg env (some vid) db m).2.1
      (handlerUploadThumbnail cfg env (some vid) db m).2.2 =
      .error (.notFound "Thumbnail not found") := by
  have hns : ¬ (file.size > 10 * 1024 * 1024) := by omega
  have hnt : ¬ (file.type ≠ "image/jpeg" ∧ file.type ≠ "image/png") := by
    rcases htype with h | h <;> simp [h]
  have hrun : handlerUploadThumbnail cfg env (some vid) db m =
      (.ok { video with thumbnailURL := some ("http://localhost:" ++ cfg.port ++ "/assets/" ++ env.fileName ++ "." ++ extOf file.type) },
       updateVideo db { video with thumbnailURL := some ("http://localhost:" ++ cfg.port ++ "/assets/" ++ env.fileName ++ "." ++ extOf file.type) },
       thumbSet m env.fileName { data := file.content, mediaType := file.type }) := by
    unfold handlerUploadThumbnail
    simp only [ha, hf, hv]
    simp [ho, hns, hnt]
  rw [hrun]
  refine ⟨⟨_, rfl⟩, ?_⟩
  have hid : Video.id { video with thumbnailURL := some ("http://localhost:" ++ cfg.port ++ "/assets/" ++ env.fileName ++ "." ++ extOf file.type) } = vid :=
    getVideo_id db vid video hv
  have hgu := getVideo_updateVideo db vid
    { video with thumbnailURL := some ("http://localhost:" ++ cfg.port ++ "/assets/" ++ env.fileName ++ "." ++ extOf file.type) }
    hid (by rw [hv]; rfl)
  have hmiss : thumbGet (thumbSet m env.fileName
      { data := file.content, mediaType := file.type }) vid = none := by
    have hb : (env.fileName == vid) = false := by simpa using hne
    unfold thumbGet thumbSet
    rw [List.find?_cons_of_neg _ (by simp [hb])]
    simpa [thumbGet] using hm
  unfold handlerGetThumbnail
  dsimp only
  simp only [hgu, hmiss]

/-- A concrete thumbnail upload by the owner with a random asset name. -/
def thumbFileA : FileData := { size := 512, type := "image/png", content := "img" }

/-- Oracle outcomes for that thumbnail upload. -/
def thumbEnvA : ThumbEnv :=
  { authResult := .ok "alice", formFile := some thumbFileA,
    fileName := "Zm9vYmFyYmF6cXV4" }

/-- Witness for C10: on the concrete store, the upload succeeds and the
subsequent get for `"v"` fails with "Thumbnail not found". -/
theorem thumbnail_upload_get_roundtrip_fails_witness :
    (∃ v2, (handlerUploadThumbnail cfg0 thumbEnvA (some "v") [videoA] []).1 = .ok v2) ∧
    handlerGetThumbnail (some "v")
      (handlerUploadThumbnail cfg0 thumbEnvA (some "v") [videoA] []).2.1
      (handlerUploadThumbnail cfg0 thumbEnvA (some "v") [videoA] []).2.2 =
      .error (.notFound "Thumbnail not found") :=
  thumbnail_upload_get_roundtrip_fails cfg0 thumbEnvA "v" [videoA] []
    "alice" videoA thumbFileA rfl rfl (by decide) (Or.inr rfl) rfl rfl
    (by decide) rfl

end Tubely
